import Mathlib

/-!
Verification of the termux-x11 input and connection layer.

The definitions below are a shallow embedding of two source files:
`TouchInputHandler.java` (gesture classification, coordinate mapping, cursor
management) and `lorie/android.c` (xcb connection setup, per-event protocol
encoding, clipboard synchronisation).  Java `float` arithmetic is modelled by
exact rationals, with a dedicated type recording the non-finite results of
dividing by zero; Java `int` casts of floats are modelled by truncation toward
zero.  Side effects (strategy callbacks, render-stub callbacks, xcb requests)
are modelled as explicit action lists returned by each operation.
-/

namespace TX11

/-- Value of a Java float division of two ints, `(float) a / b`: an exact
rational quotient when the divisor is nonzero, otherwise an infinity or NaN
(Java float division by zero raises no exception). -/
inductive JFloat
  | fin (q : ℚ)
  | inf
  | negInf
  | nan
deriving DecidableEq

/-- Java float division `(float) a / b` of two int values. -/
def jdiv (a b : ℤ) : JFloat :=
  if b = 0 then
    if 0 < a then JFloat.inf else if a < 0 then JFloat.negInf else JFloat.nan
  else JFloat.fin ((a : ℚ) / (b : ℚ))

/-- Java `(int)` cast of a float value: truncation toward zero. -/
def jtrunc (q : ℚ) : ℤ := Int.tdiv q.num q.den

/-- android.graphics.Rect, int coordinates. -/
structure JRect where
  left : ℤ
  top : ℤ
  right : ℤ
  bottom : ℤ
deriving DecidableEq

/-- Rect.contains(x, y): the rect must be non-empty; left and top edges are
inclusive, right and bottom exclusive. -/
def JRect.containsPt (r : JRect) (x y : ℤ) : Bool :=
  decide (r.left < r.right) && decide (r.top < r.bottom) &&
  decide (r.left ≤ x) && decide (x < r.right) &&
  decide (r.top ≤ y) && decide (y < r.bottom)

/-- RenderData: local view size, remote image size, the scale transform set by
`Matrix.setScale` (stored as its two diagonal entries), and the cursor position
in image space. -/
structure RenderData where
  screenWidth : ℤ
  screenHeight : ℤ
  imageWidth : ℤ
  imageHeight : ℤ
  transform : JFloat × JFloat
  cursorPosition : ℚ × ℚ
deriving DecidableEq

/-- Modelled from the spec: `RenderData.setCursorPosition` is not among the
provided sources (only its callers in TouchInputHandler are).  The spec states
the invariant "cursorPosition is always clamped to
[0, imageWidth] × [0, imageHeight]", so the setter is modelled as clamping the
requested point to that rectangle, reporting whether the stored position
changed. -/
def RenderData.setCursorPosition (rd : RenderData) (x y : ℚ) : RenderData × Bool :=
  let nx := max 0 (min x (rd.imageWidth : ℚ))
  let ny := max 0 (min y (rd.imageHeight : ℚ))
  ({ rd with cursorPosition := (nx, ny) }, decide ((nx, ny) ≠ rd.cursorPosition))

/-- Mouse buttons as resolved by TouchInputHandler (the InputStub constants). -/
inductive Button
  | undefined
  | left
  | right
  | middle
deriving DecidableEq

/-- Observable side effects of the Java input handler: strategy callbacks,
injector calls and render-stub callbacks, in emission order. -/
inductive Action
  | injectCursorMove (x y : ℤ)
  | stubMoveCursor (p : ℚ × ℚ)
  | sendCursorMove (x y : ℚ)
  | swipeDown
  | swipeUp
  | strategyScroll (dx dy : ℚ)
  | strategyTap (b : Button)
  | showFeedback (feedbackType : ℤ) (p : ℚ × ℚ)
  | requestFocus
deriving DecidableEq

/-- TouchInputHandler.resetTransformation:
`transform.setScale(imageWidth / screenWidth, imageHeight / screenHeight)`,
a float division of the int size fields with no zero-size guard. -/
def resetTransformation (rd : RenderData) : RenderData :=
  { rd with transform := (jdiv rd.imageWidth rd.screenWidth, jdiv rd.imageHeight rd.screenHeight) }

/-- TouchInputHandler.mapScreenPointToImagePoint: inverts the scale transform
and maps the point through it, i.e. divides each coordinate by the matching
scale entry.  When the matrix is not invertible (a zero or non-finite scale
entry) `Matrix.invert` fails and leaves the freshly constructed identity matrix
in place, so the point comes back unchanged. -/
def mapScreenPointToImagePoint (rd : RenderData) (screenX screenY : ℚ) : ℚ × ℚ :=
  match rd.transform with
  | (JFloat.fin sx, JFloat.fin sy) =>
      if sx ≠ 0 ∧ sy ≠ 0 then (screenX / sx, screenY / sy) else (screenX, screenY)
  | _ => (screenX, screenY)

/-- TouchInputHandler.moveCursor: stores the cursor position; when the stored
position changed the input strategy receives injectCursorMoveEvent with the
requested coordinates cast to int; the render stub always receives the stored
position. -/
def moveCursor (rd : RenderData) (newX newY : ℚ) : RenderData × List Action :=
  let r := rd.setCursorPosition newX newY
  (r.1, (if r.2 then [Action.injectCursorMove (jtrunc newX) (jtrunc newY)] else [])
        ++ [Action.stubMoveCursor r.1.cursorPosition])

/-- TouchInputHandler.moveCursorByOffset: the distance parameters are reversed
(every caller passes Android "distance" values, old position minus new), so the
cursor is offset by their negation, clamped to the local screen rectangle, and
stored via moveCursor. -/
def moveCursorByOffset (rd : RenderData) (deltaX deltaY : ℚ) : RenderData × List Action :=
  let x0 := rd.cursorPosition.1 - deltaX
  let y0 := rd.cursorPosition.2 - deltaY
  let x1 := if x0 < 0 then 0 else x0
  let y1 := if y0 < 0 then 0 else y0
  let x2 := if x1 > (rd.screenWidth : ℚ) then (rd.screenWidth : ℚ) else x1
  let y2 := if y1 > (rd.screenHeight : ℚ) then (rd.screenHeight : ℚ) else y1
  moveCursor rd x2 y2

/-- TouchInputHandler.moveCursorToScreenPoint: maps the screen point to image
space and moves the cursor there. -/
def moveCursorToScreenPoint (rd : RenderData) (screenX screenY : ℚ) : RenderData × List Action :=
  let p := mapScreenPointToImagePoint rd screenX screenY
  moveCursor rd p.1 p.2

/-- HardwareMouseListener.onTouch, cursor-update part: the event position is
cast to int, mapped to image space and stored; a cursor move is sent with the
mapped point when the stored position changed. -/
def hardwareMouseMoveCursor (rd : RenderData) (evX evY : ℚ) : RenderData × List Action :=
  let p := mapScreenPointToImagePoint rd ((jtrunc evX : ℤ) : ℚ) ((jtrunc evY : ℤ) : ℚ)
  let r := rd.setCursorPosition p.1 p.2
  (r.1, if r.2 then [Action.sendCursorMove p.1 p.2] else [])

/-- Body of TouchInputHandler.handleClientSizeChanged for one handler: store
the new screen size and recompute the transform. -/
def handleClientSizeChangedOnce (rd : RenderData) (w h : ℤ) : RenderData :=
  resetTransformation { rd with screenWidth := w, screenHeight := h }

/-- TouchInputHandler.handleClientSizeChanged: the main handler runs the body
and then repeats it on its touchpad sub-handler, which shares the same
RenderData object. -/
def handleClientSizeChanged (hasTouchpadHandler : Bool) (rd : RenderData) (w h : ℤ) : RenderData :=
  let rd1 := handleClientSizeChangedOnce rd w h
  if hasTouchpadHandler then handleClientSizeChangedOnce rd1 w h else rd1

/-- Body of TouchInputHandler.handleHostSizeChanged for one handler: store the
new image size, warp the cursor to the centre point mapped through the previous
transform, then recompute the transform.  (The update of the pan-gesture
bounds, a handler-local field, is modelled separately as the panBounds input of
onScroll.) -/
def handleHostSizeChangedOnce (rd : RenderData) (w h : ℤ) : RenderData × List Action :=
  let rd1 := { rd with imageWidth := w, imageHeight := h }
  let r := moveCursorToScreenPoint rd1 ((w : ℚ) / 2) ((h : ℚ) / 2)
  (resetTransformation r.1, r.2)

/-- TouchInputHandler.handleHostSizeChanged: the main handler runs the body and
then repeats it on its touchpad sub-handler, which shares the same RenderData
object. -/
def handleHostSizeChanged (hasTouchpadHandler : Bool) (rd : RenderData) (w h : ℤ) : RenderData × List Action :=
  let r1 := handleHostSizeChangedOnce rd w h
  if hasTouchpadHandler then
    let r2 := handleHostSizeChangedOnce r1.1 w h
    (r2.1, r1.2 ++ r2.2)
  else r1

/-- The cursor position lies inside the image rectangle. -/
def inCursorBounds (rd : RenderData) : Prop :=
  0 ≤ rd.cursorPosition.1 ∧ rd.cursorPosition.1 ≤ (rd.imageWidth : ℚ) ∧
  0 ≤ rd.cursorPosition.2 ∧ rd.cursorPosition.2 ≤ (rd.imageHeight : ℚ)

/-- Per-gesture-session mutable fields of TouchInputHandler, together with the
shared RenderData. -/
structure GestureState where
  totalMotionY : ℚ
  suppressCursorMovement : Bool
  swipeCompleted : Bool
  isDragging : Bool
  renderData : RenderData
deriving DecidableEq

/-- Swipe threshold computed in the constructor: 40 density-independent pixels
scaled by the display density. -/
def swipeThresholdOf (density : ℚ) : ℚ := 40 * density

/-- TouchInputHandler.onSwipe: fires swipeDown when the accumulator strictly
exceeds the threshold, swipeUp when it is strictly below its negation; on
firing, cursor movement is suppressed and the session is marked swipe-complete. -/
def onSwipe (threshold : ℚ) (st : GestureState) : GestureState × List Action × Bool :=
  if threshold < st.totalMotionY then
    ({ st with suppressCursorMovement := true, swipeCompleted := true }, [Action.swipeDown], true)
  else if st.totalMotionY < -threshold then
    ({ st with suppressCursorMovement := true, swipeCompleted := true }, [Action.swipeUp], true)
  else (st, [], false)

/-- Handler-level configuration and detector inputs consumed by
GestureListener.onScroll: whether this handler owns a touchpad sub-handler
(i.e. is the main touchscreen handler), the density-scaled swipe threshold, the
pan-gesture inset bounds, the active strategy's input mode and the
swipe-vs-pinch detector's current verdict. -/
structure ScrollCtx where
  hasTouchpadHandler : Bool
  swipeThreshold : ℚ
  panBounds : JRect
  indirect : Bool
  isSwiping : Bool
deriving DecidableEq

/-- Maps a motion delta through the inverted transform
(`canvasToImage.mapVectors`): a pure scale acts on vectors exactly as on
points. -/
def mapVectorToImage (rd : RenderData) (dx dy : ℚ) : ℚ × ℚ :=
  mapScreenPointToImagePoint rd dx dy

/-- GestureListener.onScroll, one OS scroll callback: edge-originated gestures
of the main handler are rejected and suppress cursor movement; three or more
pointers accumulate (sign-inverted) Y motion and test the swipe threshold; two
pointers with the swipe verdict become a two-finger scroll (re-anchoring the
cursor in direct mode); one unsuppressed pointer moves the cursor (offset in
indirect mode, finger-glued warp while dragging in direct mode). -/
def onScroll (ctx : ScrollCtx) (st : GestureState) (e1 e2 : ℚ × ℚ)
    (pointerCount : ℤ) (distanceX distanceY : ℚ) : GestureState × List Action × Bool :=
  if ¬ ctx.panBounds.containsPt (jtrunc e1.1) (jtrunc e1.2) ∧ ctx.hasTouchpadHandler then
    ({ st with suppressCursorMovement := true }, [], false)
  else if 3 ≤ pointerCount ∧ st.swipeCompleted = false then
    onSwipe ctx.swipeThreshold { st with totalMotionY := st.totalMotionY - distanceY }
  else if pointerCount = 2 ∧ ctx.isSwiping then
    let r :=
      if ctx.indirect = false then moveCursorToScreenPoint st.renderData e1.1 e1.2
      else (st.renderData, [])
    ({ st with renderData := r.1, suppressCursorMovement := true },
      r.2 ++ [Action.strategyScroll distanceX distanceY], true)
  else if pointerCount ≠ 1 ∨ st.suppressCursorMovement then (st, [], false)
  else
    let d := mapVectorToImage st.renderData distanceX distanceY
    if ctx.indirect then
      let r := moveCursorByOffset st.renderData d.1 d.2
      ({ st with renderData := r.1 }, r.2, true)
    else if st.isDragging then
      let r := moveCursorToScreenPoint st.renderData e2.1 e2.2
      ({ st with renderData := r.1 }, r.2, true)
    else (st, [], true)

/-- One scroll callback's raw inputs: the gesture origin event position, the
current event position, the pointer count and the reported distances. -/
structure ScrollEv where
  e1 : ℚ × ℚ
  e2 : ℚ × ℚ
  pointerCount : ℤ
  dX : ℚ
  dY : ℚ
deriving DecidableEq

/-- Folds a list of scroll callbacks through onScroll, accumulating the emitted
actions in order. -/
def runScrolls (ctx : ScrollCtx) (st : GestureState) : List ScrollEv → GestureState × List Action
  | [] => (st, [])
  | e :: r =>
    let s1 := onScroll ctx st e.e1 e.e2 e.pointerCount e.dX e.dY
    let s2 := runScrolls ctx s1.1 r
    (s2.1, s1.2.1 ++ s2.2)

/-- GestureListener.mouseButtonFromPointerCount: 1 finger → primary, 2 →
secondary, 3 → tertiary, anything else → undefined. -/
def mouseButtonFromPointerCount (pointerCount : ℤ) : Button :=
  if pointerCount = 1 then Button.left
  else if pointerCount = 2 then Button.right
  else if pointerCount = 3 then Button.middle
  else Button.undefined

/-- TouchInputHandler.EPSILON = 0.001f. -/
def EPSILON : ℚ := 1 / 1000

/-- GestureListener.screenPointLiesOutsideImageBoundary: maps the screen point
to image space and tests it against the image rectangle enlarged by EPSILON on
every side. -/
def screenPointLiesOutsideImageBoundary (rd : RenderData) (screenX screenY : ℚ) : Bool :=
  let m := mapScreenPointToImagePoint rd screenX screenY
  let imageWidth : ℚ := (rd.imageWidth : ℚ) + EPSILON
  let imageHeight : ℚ := (rd.imageHeight : ℚ) + EPSILON
  decide (m.1 < -EPSILON) || decide (m.1 > imageWidth) ||
  decide (m.2 < -EPSILON) || decide (m.2 > imageHeight)

/-- GestureListener.onTap: resolves the pointer count to a button (rejecting
undefined); in direct input mode rejects taps mapping outside the image
boundary and otherwise warps the cursor to the tapped point first; then
forwards the tap to the input strategy, showing feedback when the strategy
consumed it.  The strategy's consumption verdict and short-press feedback type
are external inputs. -/
def onTap (indirect : Bool) (tapConsumed : Button → Bool) (shortPressFeedbackType : ℤ)
    (st : GestureState) (pointerCount : ℤ) (x y : ℚ) : GestureState × List Action × Bool :=
  let button := mouseButtonFromPointerCount pointerCount
  if button = Button.undefined then (st, [], false)
  else if indirect = false && screenPointLiesOutsideImageBoundary st.renderData x y then
    (st, [], false)
  else
    let r := if indirect = false then moveCursorToScreenPoint st.renderData x y
             else (st.renderData, [])
    let st1 := { st with renderData := r.1 }
    let feedback :=
      if tapConsumed button then
        [Action.showFeedback shortPressFeedbackType r.1.cursorPosition]
      else []
    (st1, r.2 ++ [Action.strategyTap button] ++ feedback, true)

/-- MotionEvent tool types distinguished by handleTouchEvent. -/
inductive ToolType
  | mouse
  | finger
  | stylus
  | eraser
  | unknownTool
deriving DecidableEq

/-- MotionEvent.ACTION_DOWN. -/
def ACTION_DOWN : ℤ := 0

/-- MotionEvent.ACTION_POINTER_DOWN. -/
def ACTION_POINTER_DOWN : ℤ := 5

/-- The inputs of one motion event that handleTouchEvent dispatches on: the
tool type at the action index, the masked action, whether the view is focused,
and the two source-bitmask classifications (Dex pointer, touchpad source)
computed by isDexEvent and the SOURCE_TOUCHPAD mask test. -/
structure MotionEv where
  toolType : ToolType
  actionMasked : ℤ
  viewFocused : Bool
  isDex : Bool
  touchpadSource : Bool
deriving DecidableEq

/-- TouchInputHandler.handleTouchEvent: requests focus on a first touch of an
unfocused view; hardware-mouse events go to the hardware-mouse listener; finger
events go to the Dex listener, the touchpad sub-handler, or the full gesture
pipeline (strategy observation, all four detectors, then the per-action session
resets), consuming the event; any other tool type falls through unconsumed.
The three listener paths and the detector pipeline are taken as function
inputs, since their interesting behaviour lives behind framework detector
classes; the dispatch structure itself is what this definition embeds. -/
def handleTouchEvent (hasTouchpadHandler : Bool)
    (hmOnTouch dexOnTouch touchpadHandle fingerPipeline :
      GestureState → MotionEv → GestureState × List Action × Bool)
    (st : GestureState) (ev : MotionEv) : GestureState × List Action × Bool :=
  let focusActs :=
    if ev.viewFocused = false ∧ ev.actionMasked = ACTION_DOWN then [Action.requestFocus] else []
  match ev.toolType with
  | ToolType.mouse =>
      let r := hmOnTouch st ev
      (r.1, focusActs ++ r.2.1, r.2.2)
  | ToolType.finger =>
      if ev.isDex then
        let r := dexOnTouch st ev
        (r.1, focusActs ++ r.2.1, r.2.2)
      else if hasTouchpadHandler ∧ ev.touchpadSource then
        let r := touchpadHandle st ev
        (r.1, focusActs ++ r.2.1, r.2.2)
      else
        let r := fingerPipeline st ev
        let st1 := r.1
        let st2 :=
          if ev.actionMasked = ACTION_DOWN then
            { st1 with suppressCursorMovement := false, swipeCompleted := false,
                       isDragging := false }
          else if ev.actionMasked = ACTION_POINTER_DOWN then { st1 with totalMotionY := 0 }
          else st1
        (st2, focusActs ++ r.2.1, true)
  | _ => (st, focusActs, false)

/-- Global client-side state of android.c: the installed xcb connection (by
transport fd), whether an error-decoding context is installed, the negotiated
XFIXES first-event offset, the proxy window id, the two interned atoms and the
clipboard-sync flag. -/
structure NativeState where
  conn : Option ℤ
  hasErrCtx : Bool
  xfixesFirstEvent : ℤ
  win : ℤ
  atomClipboard : ℤ
  propSel : ℤ
  clipboardSyncEnabled : Bool
deriving DecidableEq

/-- Outbound xcb activity of android.c, in call order: per-event protocol
encodes, flushes, clipboard requests, connection teardown and the connection
setup requests, plus logging of decoded errors. -/
inductive WireOp
  | encodeScreenSize (w h : ℤ)
  | encodeMouse (x y : ℚ) (button : ℤ) (down relative : Bool)
  | encodeTouch (action id x y : ℤ)
  | encodeKey (code : ℤ) (down : Bool)
  | encodeUnicode (codePoint : ℤ)
  | flush
  | convertSelection (requestor selection target property : ℤ)
  | getProperty (window property : ℤ) (offset length : ℕ)
  | deliverClipboardText (s : String)
  | logError
  | logConnError (code : ℤ)
  | disconnectPrevious
  | reqQueryExtensionXfixes
  | reqXfixesQueryVersion
  | reqInternAtomClipboard
  | reqInternAtomTermuxClip
  | reqSelectSelectionInput
  | reqCreateProxyWindow
deriving DecidableEq

/-- Replies obtained during connection negotiation: the XFIXES query-extension
reply (first-event offset, when a reply arrived), the two intern-atom replies,
and the window id produced by xcb. -/
structure NegotiationEnv where
  xfixesReply : Option ℤ
  clipboardAtomReply : Option ℤ
  termuxClipAtomReply : Option ℤ
  newWindowId : ℤ
deriving DecidableEq

/-- MainActivity.connect (Java_com_termux_x11_MainActivity_connect): decodes
and logs a transport-level error of the candidate connection but does not
return early; it frees the previous error context, disconnects the previous
connection, installs the candidate, creates a fresh error context and then runs
every negotiation step on the candidate (XFIXES query-extension and version,
the two atom interns, selection-input registration, proxy-window creation),
finishing with a flush.  Each step's protocol error is decoded and logged
without aborting. -/
def connect (st : NativeState) (candidateFd : ℤ) (connErr : ℤ) (env : NegotiationEnv) :
    NativeState × List WireOp :=
  let logOps := if connErr ≠ 0 then [WireOp.logConnError connErr] else []
  let discOps := if st.conn.isSome then [WireOp.disconnectPrevious] else []
  let st1 : NativeState :=
    { conn := some candidateFd
      hasErrCtx := true
      xfixesFirstEvent :=
        match env.xfixesReply with
        | some v => v
        | none => st.xfixesFirstEvent
      win := env.newWindowId
      atomClipboard :=
        match env.clipboardAtomReply with
        | some v => v
        | none => st.atomClipboard
      propSel :=
        match env.termuxClipAtomReply with
        | some v => v
        | none => st.propSel
      clipboardSyncEnabled := st.clipboardSyncEnabled }
  (st1, logOps ++ discOps ++
    [WireOp.reqQueryExtensionXfixes, WireOp.reqXfixesQueryVersion,
     WireOp.reqInternAtomClipboard, WireOp.reqInternAtomTermuxClip,
     WireOp.reqSelectSelectionInput, WireOp.reqCreateProxyWindow, WireOp.flush])

/-- MainActivity.setClipboardSyncEnabled. -/
def setClipboardSyncEnabled (st : NativeState) (enabled : Bool) : NativeState :=
  { st with clipboardSyncEnabled := enabled }

/-- MainActivity.sendWindowChange: with a connection installed, encode a
screen-size change and flush; otherwise do nothing. -/
def sendWindowChange (st : NativeState) (width height : ℤ) : NativeState × List WireOp :=
  (st, if st.conn.isSome then [WireOp.encodeScreenSize width height, WireOp.flush] else [])

/-- MainActivity.sendMouseEvent: with a connection installed, encode the
pointer event and flush; otherwise do nothing. -/
def sendMouseEvent (st : NativeState) (x y : ℚ) (whichButton : ℤ) (buttonDown relative : Bool) :
    NativeState × List WireOp :=
  (st, if st.conn.isSome then
        [WireOp.encodeMouse x y whichButton buttonDown relative, WireOp.flush]
      else [])

/-- MainActivity.sendTouchEvent: with a connection installed, a nonnegative
action encodes a touch-point event (with no flush); a negative action only
flushes. -/
def sendTouchEvent (st : NativeState) (action id x y : ℤ) : NativeState × List WireOp :=
  (st, if st.conn.isSome then
        if 0 ≤ action then [WireOp.encodeTouch action id x y] else [WireOp.flush]
      else [])

/-- MainActivity.sendKeyEvent: with a connection installed, the scan code (when
nonzero) or the keycode translation table entry, plus 8, is encoded and
flushed; the function returns true either way.  The android-to-linux keycode
table is data external to the translation unit and is taken as a function
input. -/
def sendKeyEvent (androidToLinuxKeycode : ℤ → ℤ) (st : NativeState)
    (scanCode keyCode : ℤ) (keyDown : Bool) : NativeState × List WireOp × Bool :=
  (st,
   (if st.conn.isSome then
      [WireOp.encodeKey ((if scanCode ≠ 0 then scanCode else androidToLinuxKeycode keyCode) + 8)
         keyDown,
       WireOp.flush]
    else []),
   true)

/-- MainActivity.sendUnicodeEvent: with a connection installed, encode the code
point and flush; otherwise do nothing. -/
def sendUnicodeEvent (st : NativeState) (codePoint : ℤ) : NativeState × List WireOp :=
  (st, if st.conn.isSome then [WireOp.encodeUnicode codePoint, WireOp.flush] else [])

/-- XCB_ATOM_STRING, the predefined string-type atom of the core protocol. -/
def xcbAtomString : ℤ := 31

/-- Decoded inbound events drained by handleXEvents: a protocol error
(response type 0), the XFIXES selection-owner-change notification (extension
first-event plus the fixed offset), a standard selection-notify reply carrying
the transfer property (whose queried byte size and string content are recorded
on the event), or anything else. -/
inductive XEvent
  | errorEvent
  | xfixesSelectionNotify
  | selectionNotify (bytesAfter : ℕ) (value : String)
  | otherEvent
deriving DecidableEq

/-- One iteration of the handleXEvents poll loop: errors are decoded and
logged; a selection-owner change issues (only when clipboard sync is enabled) a
convert-selection targeting the proxy window with the STRING target and the
transfer property, followed by a flush; a selection-notify reply queries the
property size with a zero-length get-property, then, when nonzero, re-queries
with that exact size and delivers the text. -/
def processXEvent (st : NativeState) : XEvent → List WireOp
  | XEvent.errorEvent => [WireOp.logError]
  | XEvent.xfixesSelectionNotify =>
      if st.clipboardSyncEnabled then
        [WireOp.convertSelection st.win st.atomClipboard xcbAtomString st.propSel, WireOp.flush]
      else []
  | XEvent.selectionNotify bytesAfter value =>
      [WireOp.getProperty st.win st.propSel 0 0] ++
      (if bytesAfter ≠ 0 then
        [WireOp.getProperty st.win st.propSel 0 bytesAfter, WireOp.deliverClipboardText value]
      else [])
  | XEvent.otherEvent => []

/-- MainActivity.handleXEvents: without a connection the drain is skipped;
otherwise every pending event is processed in order. -/
def handleXEvents (st : NativeState) : List XEvent → List WireOp
  | [] => []
  | ev :: rest =>
      if st.conn.isSome then processXEvent st ev ++ handleXEvents st rest else []

/-- Recognises an outbound selection-conversion request. -/
def isConvertSelection : WireOp → Bool
  | WireOp.convertSelection _ _ _ _ => true
  | _ => false

theorem setCursorPosition_inCursorBounds (rd : RenderData) (x y : ℚ)
    (hw : 0 ≤ rd.imageWidth) (hh : 0 ≤ rd.imageHeight) :
    inCursorBounds (rd.setCursorPosition x y).1 := by
  have hw' : (0 : ℚ) ≤ (rd.imageWidth : ℚ) := by exact_mod_cast hw
  have hh' : (0 : ℚ) ≤ (rd.imageHeight : ℚ) := by exact_mod_cast hh
  simp only [RenderData.setCursorPosition, inCursorBounds]
  exact ⟨le_max_left _ _, max_le hw' (min_le_right _ _),
         le_max_left _ _, max_le hh' (min_le_right _ _)⟩

theorem moveCursor_fst (rd : RenderData) (x y : ℚ) :
    (moveCursor rd x y).1 = (rd.setCursorPosition x y).1 := rfl

/-- Claim C1: every cursor-moving operation (offset move, warp to a screen
point, hardware-mouse move) leaves the cursor position inside
[0, imageWidth] × [0, imageHeight]; in particular the spec example holds: a
cursor displacement of (-10000, -10000) — distance parameters (+10000, +10000),
since moveCursorByOffset receives reversed distances — from (5, 5) on a
1920×1080 image yields (0, 0).  RenderData.setCursorPosition is modelled from
the spec (see its docstring). -/
theorem c1_cursor_position_clamped (rd : RenderData) (dx dy sx sy mx my : ℚ)
    (hw : 0 ≤ rd.imageWidth) (hh : 0 ≤ rd.imageHeight) :
    inCursorBounds (moveCursorByOffset rd dx dy).1 ∧
    inCursorBounds (moveCursorToScreenPoint rd sx sy).1 ∧
    inCursorBounds (hardwareMouseMoveCursor rd mx my).1 ∧
    (moveCursorByOffset
        (RenderData.mk 1920 1080 1920 1080 (JFloat.fin 1, JFloat.fin 1) (5, 5))
        10000 10000).1.cursorPosition = (0, 0) := by
  refine ⟨?_, ?_, ?_, ?_⟩
  · rw [moveCursorByOffset, moveCursor_fst]
    exact setCursorPosition_inCursorBounds rd _ _ hw hh
  · rw [moveCursorToScreenPoint, moveCursor_fst]
    exact setCursorPosition_inCursorBounds rd _ _ hw hh
  · rw [hardwareMouseMoveCursor]
    exact setCursorPosition_inCursorBounds rd _ _ hw hh
  · norm_num [moveCursorByOffset, moveCursor, RenderData.setCursorPosition]

def c1rdw : RenderData :=
  RenderData.mk 1080 2400 1920 1080 (JFloat.fin (16/9), JFloat.fin (9/20)) (100, 200)

theorem c1_cursor_position_clamped_witness :
    0 ≤ c1rdw.imageWidth ∧ 0 ≤ c1rdw.imageHeight ∧
      inCursorBounds (moveCursorByOffset c1rdw 3 4).1 :=
  ⟨by norm_num [c1rdw], by norm_num [c1rdw],
   (c1_cursor_position_clamped c1rdw 3 4 7 8 9 10
      (by norm_num [c1rdw]) (by norm_num [c1rdw])).1⟩

/-- Claim C2: after a screen-size change or an image-size change with all four
sizes positive, the transform scale is exactly
(imageWidth / screenWidth, imageHeight / screenHeight). -/
theorem c2_transform_scale (tp : Bool) (rd : RenderData) (sw sh iw ih : ℤ)
    (hsw : 0 < sw) (hsh : 0 < sh)
    (hrsw : 0 < rd.screenWidth) (hrsh : 0 < rd.screenHeight)
    (hriw : 0 < rd.imageWidth) (hrih : 0 < rd.imageHeight)
    (hiw : 0 < iw) (hih : 0 < ih) :
    (handleClientSizeChanged tp rd sw sh).transform
      = (JFloat.fin ((rd.imageWidth : ℚ) / (sw : ℚ)),
         JFloat.fin ((rd.imageHeight : ℚ) / (sh : ℚ))) ∧
    (handleHostSizeChanged tp rd iw ih).1.transform
      = (JFloat.fin ((iw : ℚ) / (rd.screenWidth : ℚ)),
         JFloat.fin ((ih : ℚ) / (rd.screenHeight : ℚ))) := by
  constructor
  · cases tp <;>
      simp [handleClientSizeChanged, handleClientSizeChangedOnce, resetTransformation,
        jdiv, hsw.ne', hsh.ne']
  · cases tp <;>
      simp [handleHostSizeChanged, handleHostSizeChangedOnce, resetTransformation,
        moveCursorToScreenPoint, moveCursor, RenderData.setCursorPosition,
        jdiv, hrsw.ne', hrsh.ne']

theorem c2_transform_scale_witness :
    (handleClientSizeChanged true c1rdw 1080 2400).transform
      = (JFloat.fin ((1920 : ℚ) / 1080), JFloat.fin ((1080 : ℚ) / 2400)) :=
  by
    have h := c2_transform_scale true c1rdw 1080 2400 800 600
      (by norm_num) (by norm_num) (by norm_num [c1rdw]) (by norm_num [c1rdw])
      (by norm_num [c1rdw]) (by norm_num [c1rdw]) (by norm_num) (by norm_num)
    simpa [c1rdw] using h.1

def c3data : RenderData :=
  RenderData.mk 1080 2400 1920 1080 (JFloat.fin (16/9), JFloat.fin (9/20)) (0, 0)

/-- Claim C3 counterexample: a screen-size change to 0×0 is not skipped — the
transform is recomputed (to an infinite scale via float division by zero)
instead of the last valid transform being retained. -/
theorem c3_zero_size_counterexample :
    (handleClientSizeChanged true c3data 0 0).transform ≠ c3data.transform ∧
    (handleClientSizeChanged true c3data 0 0).transform = (JFloat.inf, JFloat.inf) := by
  constructor
  · intro hcontra
    simp [handleClientSizeChanged, handleClientSizeChangedOnce, resetTransformation,
      jdiv, c3data] at hcontra
  · simp [handleClientSizeChanged, handleClientSizeChangedOnce, resetTransformation,
      jdiv, c3data]

/-- Claim C3 (amended): size changes recompute the transform unconditionally —
there is no zero-size guard.  The scale is always the float quotient of the
stored sizes, so a zero screen dimension with a positive image dimension yields
an infinite scale rather than retaining the previous transform; no error is
raised (the operation is total), matching only the no-error-surfaced part of
the original claim. -/
theorem c3_zero_size_recompute_unguarded (tp : Bool) (rd : RenderData) (w h : ℤ) :
    (handleClientSizeChanged tp rd w h).transform
      = (jdiv rd.imageWidth w, jdiv rd.imageHeight h) ∧
    (0 < rd.imageWidth → (handleClientSizeChanged tp rd 0 h).transform.1 = JFloat.inf) ∧
    (0 < rd.imageHeight → (handleClientSizeChanged tp rd w 0).transform.2 = JFloat.inf) := by
  refine ⟨?_, fun hw => ?_, fun hh => ?_⟩ <;>
    cases tp <;>
      simp [handleClientSizeChanged, handleClientSizeChangedOnce, resetTransformation, jdiv] <;>
      first
        | rfl
        | simp [hw, hw.ne.symm]
        | simp [hh, hh.ne.symm]

theorem c3_zero_size_recompute_unguarded_witness :
    0 < c3data.imageWidth ∧
      (handleClientSizeChanged false c3data 0 7).transform.1 = JFloat.inf :=
  ⟨by norm_num [c3data],
   (c3_zero_size_recompute_unguarded false c3data 3 7).2.1 (by norm_num [c3data])⟩

def c5st0 : NativeState := NativeState.mk (some 3) true 87 99 301 302 false

def c5env : NegotiationEnv := NegotiationEnv.mk (some 87) (some 301) (some 302) 444

/-- Claim C5 counterexample: with transport error code 1 (XCB_CONN_ERROR) on
the candidate connection, connect still installs the candidate as the active
connection and still issues every negotiation step on it — setup neither
aborts nor discards the candidate. -/
theorem c5_conn_error_counterexample :
    (connect c5st0 7 1 c5env).1.conn = some 7 ∧
    WireOp.reqCreateProxyWindow ∈ (connect c5st0 7 1 c5env).2 := by decide

/-- Claim C5 (amended): a transport-level connection error on the candidate is
decoded and logged, but setup does not abort: the previous connection is torn
down, the errored candidate is installed as the active connection, and every
negotiation step is still issued on it.  Protocol-level errors in individual
negotiation steps remain non-fatal as the original claim states. -/
theorem c5_conn_error_does_not_abort (st : NativeState) (fd connErr : ℤ)
    (env : NegotiationEnv) :
    (connect st fd connErr env).1.conn = some fd ∧
    WireOp.reqCreateProxyWindow ∈ (connect st fd connErr env).2 ∧
    (connErr ≠ 0 → WireOp.logConnError connErr ∈ (connect st fd connErr env).2) ∧
    (st.conn.isSome = true → WireOp.disconnectPrevious ∈ (connect st fd connErr env).2) := by
  refine ⟨rfl, ?_, fun herr => ?_, fun hold => ?_⟩
  · simp [connect]
  · simp [connect, herr]
  · simp [connect, hold]

theorem c5_conn_error_does_not_abort_witness :
    (2 : ℤ) ≠ 0 ∧ c5st0.conn.isSome = true ∧
      WireOp.logConnError 2 ∈ (connect c5st0 9 2 c5env).2 ∧
      WireOp.disconnectPrevious ∈ (connect c5st0 9 2 c5env).2 :=
  ⟨by decide, by decide,
   (c5_conn_error_does_not_abort c5st0 9 2 c5env).2.2.1 (by decide),
   (c5_conn_error_does_not_abort c5st0 9 2 c5env).2.2.2 (by decide)⟩

def c6st : NativeState := NativeState.mk (some 3) true 87 99 301 302 true

/-- Claim C6 counterexample: with a connection installed, a touch-point encode
(action 0) returns without any flush — the emitted wire traffic is exactly the
touch encode, and no flush operation occurs in it. -/
theorem c6_touch_encode_without_flush_counterexample :
    (sendTouchEvent c6st 0 1 10 20).2 = [WireOp.encodeTouch 0 1 10 20] ∧
    WireOp.flush ∉ (sendTouchEvent c6st 0 1 10 20).2 := by decide

/-- Claim C6 (amended): with a connection installed, the screen-resize,
pointer, key and unicode encodes are each immediately followed by an explicit
flush before the call returns; the touch-point encode (action ≥ 0) is the
exception — it is not followed by a flush, and the touch sequence is flushed
only by a separate flush-marker call with action < 0, which encodes nothing. -/
theorem c6_flush_per_encode_except_touch (st : NativeState) (tbl : ℤ → ℤ)
    (w h : ℤ) (x y : ℚ) (button : ℤ) (down rel : Bool)
    (action id tx ty scan key : ℤ) (keyDown : Bool) (u : ℤ)
    (hconn : st.conn.isSome = true) :
    (sendWindowChange st w h).2 = [WireOp.encodeScreenSize w h, WireOp.flush] ∧
    (sendMouseEvent st x y button down rel).2
      = [WireOp.encodeMouse x y button down rel, WireOp.flush] ∧
    (0 ≤ action →
      (sendTouchEvent st action id tx ty).2 = [WireOp.encodeTouch action id tx ty] ∧
      WireOp.flush ∉ (sendTouchEvent st action id tx ty).2) ∧
    (action < 0 → (sendTouchEvent st action id tx ty).2 = [WireOp.flush]) ∧
    (sendKeyEvent tbl st scan key keyDown).2.1
      = [WireOp.encodeKey ((if scan ≠ 0 then scan else tbl key) + 8) keyDown, WireOp.flush] ∧
    (sendUnicodeEvent st u).2 = [WireOp.encodeUnicode u, WireOp.flush] := by
  refine ⟨?_, ?_, fun hpos => ?_, fun hneg => ?_, ?_, ?_⟩
  · simp [sendWindowChange, hconn]
  · simp [sendMouseEvent, hconn]
  · simp [sendTouchEvent, hconn, hpos]
  · simp [sendTouchEvent, hconn, not_le.mpr hneg]
  · simp [sendKeyEvent, hconn]
  · simp [sendUnicodeEvent, hconn]

theorem c6_flush_per_encode_except_touch_witness :
    c6st.conn.isSome = true ∧ (0 : ℤ) ≤ 2 ∧
      (sendTouchEvent c6st 2 1 10 20).2 = [WireOp.encodeTouch 2 1 10 20] ∧
      (sendUnicodeEvent c6st 955).2 = [WireOp.encodeUnicode 955, WireOp.flush] :=
  ⟨by decide, by decide,
   ((c6_flush_per_encode_except_touch c6st (fun k => k) 1 2 3 4 5 true false
       2 1 10 20 0 9 true 955 (by decide)).2.2.1 (by decide)).1,
   (c6_flush_per_encode_except_touch c6st (fun k => k) 1 2 3 4 5 true false
       2 1 10 20 0 9 true 955 (by decide)).2.2.2.2.2⟩

def c7st : NativeState := NativeState.mk none false 0 0 0 0 false

/-- Claim C7: with no connection installed every encode operation is a silent
no-op — no wire operation is emitted, the native state is left untouched and
no error is raised (each operation is total; sendKeyEvent still reports
true). -/
theorem c7_no_connection_noop (st : NativeState) (tbl : ℤ → ℤ) (w h : ℤ)
    (x y : ℚ) (button : ℤ) (down rel : Bool) (action id tx ty scan key : ℤ)
    (keyDown : Bool) (u : ℤ) (hconn : st.conn = none) :
    sendWindowChange st w h = (st, []) ∧
    sendMouseEvent st x y button down rel = (st, []) ∧
    sendTouchEvent st action id tx ty = (st, []) ∧
    sendKeyEvent tbl st scan key keyDown = (st, [], true) ∧
    sendUnicodeEvent st u = (st, []) := by
  simp [sendWindowChange, sendMouseEvent, sendTouchEvent, sendKeyEvent, sendUnicodeEvent, hconn]

theorem c7_no_connection_noop_witness :
    c7st.conn = none ∧ sendTouchEvent c7st 2 1 10 20 = (c7st, []) ∧
      sendUnicodeEvent c7st 955 = (c7st, []) :=
  ⟨by decide,
   (c7_no_connection_noop c7st (fun k => k) 1 2 3 4 5 true false 2 1 10 20 0 9 true 955
      (by decide)).2.2.1,
   (c7_no_connection_noop c7st (fun k => k) 1 2 3 4 5 true false 2 1 10 20 0 9 true 955
      (by decide)).2.2.2.2⟩

/-- Claim C8: on receiving a selection-owner-change notification, clipboard
sync Disabled issues no conversion request at all, while Enabled issues exactly
one conversion request, targeting the proxy window with the STRING-type target
and the transfer property, followed by a flush. -/
theorem c8_clipboard_sync_gating (st : NativeState) (hconn : st.conn.isSome = true) :
    (st.clipboardSyncEnabled = false →
      handleXEvents st [XEvent.xfixesSelectionNotify] = []) ∧
    (st.clipboardSyncEnabled = true →
      handleXEvents st [XEvent.xfixesSelectionNotify]
        = [WireOp.convertSelection st.win st.atomClipboard xcbAtomString st.propSel,
           WireOp.flush] ∧
      ((handleXEvents st [XEvent.xfixesSelectionNotify]).filter isConvertSelection).length
        = 1) := by
  constructor <;> intro hen <;>
    simp [handleXEvents, processXEvent, hconn, hen, isConvertSelection]

theorem c8_clipboard_sync_gating_witness :
    c6st.conn.isSome = true ∧ c6st.clipboardSyncEnabled = true ∧
      handleXEvents c6st [XEvent.xfixesSelectionNotify]
        = [WireOp.convertSelection 99 301 xcbAtomString 302, WireOp.flush] ∧
      (setClipboardSyncEnabled c6st false).clipboardSyncEnabled = false ∧
      handleXEvents (setClipboardSyncEnabled c6st false) [XEvent.xfixesSelectionNotify] = [] :=
  ⟨by decide, by decide,
   ((c8_clipboard_sync_gating c6st (by decide)).2 (by decide)).1,
   by decide,
   (c8_clipboard_sync_gating (setClipboardSyncEnabled c6st false) (by decide)).1 (by decide)⟩

def c9rd : RenderData :=
  RenderData.mk 1920 1080 1920 1080 (JFloat.fin 1, JFloat.fin 1) (5, 5)

def c9st : GestureState := GestureState.mk 0 false false false c9rd

/-- Claim C9: a tap resolves the pointer count to a button (1 → primary/left,
2 → secondary/right, 3 → tertiary/middle, any other count → undefined, and the
tap is then rejected with no action); in direct input mode a tap whose mapped
image point lies outside the image bounds beyond EPSILON is rejected with no
cursor warp and no forwarded click — on a 1920×1080 image under the identity
transform a tap mapping to (1921, 0) is rejected, while one mapping to
(1919, 0) is accepted and warps the cursor there before the click is
forwarded. -/
theorem c9_tap_button_and_bounds (indirect : Bool) (tc : Button → Bool) (fb : ℤ)
    (st : GestureState) (pc : ℤ) (x y : ℚ) :
    (mouseButtonFromPointerCount 1 = Button.left ∧
     mouseButtonFromPointerCount 2 = Button.right ∧
     mouseButtonFromPointerCount 3 = Button.middle ∧
     (pc ≠ 1 → pc ≠ 2 → pc ≠ 3 → mouseButtonFromPointerCount pc = Button.undefined)) ∧
    (mouseButtonFromPointerCount pc = Button.undefined →
      onTap indirect tc fb st pc x y = (st, [], false)) ∧
    (indirect = false → screenPointLiesOutsideImageBoundary st.renderData x y = true →
      onTap indirect tc fb st pc x y = (st, [], false)) ∧
    onTap false (fun _ => true) 11 c9st 1 1921 0 = (c9st, [], false) ∧
    (onTap false (fun _ => true) 11 c9st 1 1919 0).2.1
      = [Action.injectCursorMove 1919 0, Action.stubMoveCursor (1919, 0),
         Action.strategyTap Button.left, Action.showFeedback 11 ((1919 : ℚ), (0 : ℚ))] ∧
    (onTap false (fun _ => true) 11 c9st 1 1919 0).1.renderData.cursorPosition
      = (1919, 0) := by
  refine ⟨⟨by norm_num [mouseButtonFromPointerCount],
           by norm_num [mouseButtonFromPointerCount],
           by norm_num [mouseButtonFromPointerCount],
           fun h1 h2 h3 => by simp [mouseButtonFromPointerCount, h1, h2, h3]⟩,
         fun hbut => by simp [onTap, hbut],
         fun hind hout => ?_, ?_, ?_, ?_⟩
  · by_cases hbut : mouseButtonFromPointerCount pc = Button.undefined
    · simp [onTap, hbut]
    · simp [onTap, hbut, hind, hout]
  · norm_num [onTap, mouseButtonFromPointerCount, screenPointLiesOutsideImageBoundary,
      mapScreenPointToImagePoint, EPSILON, c9st, c9rd]
  · norm_num [onTap, mouseButtonFromPointerCount, screenPointLiesOutsideImageBoundary,
      mapScreenPointToImagePoint, EPSILON, moveCursorToScreenPoint, moveCursor,
      RenderData.setCursorPosition, jtrunc, c9st, c9rd]
    rw [if_neg (by decide : ¬ Button.left = Button.undefined)]
  · norm_num [onTap, mouseButtonFromPointerCount, screenPointLiesOutsideImageBoundary,
      mapScreenPointToImagePoint, EPSILON, moveCursorToScreenPoint, moveCursor,
      RenderData.setCursorPosition, c9st, c9rd]
    rw [if_neg (by decide : ¬ Button.left = Button.undefined)]

theorem c9_tap_button_and_bounds_witness :
    (4 : ℤ) ≠ 1 ∧ (4 : ℤ) ≠ 2 ∧ (4 : ℤ) ≠ 3 ∧
      mouseButtonFromPointerCount 4 = Button.undefined ∧
      onTap true (fun _ => true) 11 c9st 4 50 60 = (c9st, [], false) :=
  ⟨by decide, by decide, by decide,
   (c9_tap_button_and_bounds true (fun _ => true) 11 c9st 4 50 60).1.2.2.2
     (by decide) (by decide) (by decide),
   (c9_tap_button_and_bounds true (fun _ => true) 11 c9st 4 50 60).2.1
     ((c9_tap_button_and_bounds true (fun _ => true) 11 c9st 4 50 60).1.2.2.2
       (by decide) (by decide) (by decide))⟩

def c10st : GestureState := GestureState.mk 7 true false true c9rd

def c10ev : MotionEv := MotionEv.mk ToolType.stylus 0 false false false

/-- Claim C10: a motion event whose tool type at the action index is neither
mouse nor finger is not consumed — handleTouchEvent performs no gesture
processing, emits no protocol intent (at most the view-focus request), changes
no session state and returns false. -/
theorem c10_unknown_tool_ignored (hasTp : Bool)
    (hm dex tp fp : GestureState → MotionEv → GestureState × List Action × Bool)
    (st : GestureState) (ev : MotionEv)
    (hmouse : ev.toolType ≠ ToolType.mouse) (hfinger : ev.toolType ≠ ToolType.finger) :
    (handleTouchEvent hasTp hm dex tp fp st ev).1 = st ∧
    (handleTouchEvent hasTp hm dex tp fp st ev).2.2 = false ∧
    ∀ a ∈ (handleTouchEvent hasTp hm dex tp fp st ev).2.1, a = Action.requestFocus := by
  cases htt : ev.toolType
  case mouse => exact absurd htt hmouse
  case finger => exact absurd htt hfinger
  all_goals
    refine ⟨?_, ?_, ?_⟩ <;>
      simp only [handleTouchEvent, htt] <;>
      split <;> simp

theorem c10_unknown_tool_ignored_witness :
    c10ev.toolType ≠ ToolType.mouse ∧ c10ev.toolType ≠ ToolType.finger ∧
      (handleTouchEvent true (fun s _ => (s, [Action.swipeUp], true))
        (fun s _ => (s, [Action.swipeDown], true)) (fun s _ => (s, [], true))
        (fun s _ => (s, [], true)) c10st c10ev).1 = c10st ∧
      (handleTouchEvent true (fun s _ => (s, [Action.swipeUp], true))
        (fun s _ => (s, [Action.swipeDown], true)) (fun s _ => (s, [], true))
        (fun s _ => (s, [], true)) c10st c10ev).2.2 = false :=
  ⟨by decide, by decide,
   (c10_unknown_tool_ignored true (fun s _ => (s, [Action.swipeUp], true))
      (fun s _ => (s, [Action.swipeDown], true)) (fun s _ => (s, [], true))
      (fun s _ => (s, [], true)) c10st c10ev (by decide) (by decide)).1,
   (c10_unknown_tool_ignored true (fun s _ => (s, [Action.swipeUp], true))
      (fun s _ => (s, [Action.swipeDown], true)) (fun s _ => (s, [], true))
      (fun s _ => (s, [], true)) c10st c10ev (by decide) (by decide)).2.1⟩

/-- A scroll callback belonging to a three-or-more-finger swipe phase: at least
three pointers, with the gesture origin inside the pan bounds. -/
def goodSwipeEv (ctx : ScrollCtx) (ev : ScrollEv) : Prop :=
  3 ≤ ev.pointerCount ∧
  ctx.panBounds.containsPt (jtrunc ev.e1.1) (jtrunc ev.e1.2) = true

theorem runScrolls_cons (ctx : ScrollCtx) (st : GestureState) (e : ScrollEv)
    (r : List ScrollEv) :
    runScrolls ctx st (e :: r)
      = ((runScrolls ctx (onScroll ctx st e.e1 e.e2 e.pointerCount e.dX e.dY).1 r).1,
         (onScroll ctx st e.e1 e.e2 e.pointerCount e.dX e.dY).2.1
           ++ (runScrolls ctx (onScroll ctx st e.e1 e.e2 e.pointerCount e.dX e.dY).1 r).2) :=
  rfl

theorem onScroll_completed (ctx : ScrollCtx) (st : GestureState) (e1 e2 : ℚ × ℚ)
    (pc : ℤ) (dX dY : ℚ)
    (hb : ctx.panBounds.containsPt (jtrunc e1.1) (jtrunc e1.2) = true)
    (hpc : 3 ≤ pc) (hc : st.swipeCompleted = true) :
    onScroll ctx st e1 e2 pc dX dY = (st, [], false) := by
  have h2 : pc ≠ 2 := by omega
  have h1 : pc ≠ 1 := by omega
  simp [onScroll, hb, hc, h1, h2]

theorem onScroll_swipePhase (ctx : ScrollCtx) (st : GestureState) (e1 e2 : ℚ × ℚ)
    (pc : ℤ) (dX dY : ℚ)
    (hb : ctx.panBounds.containsPt (jtrunc e1.1) (jtrunc e1.2) = true)
    (hpc : 3 ≤ pc) (hc : st.swipeCompleted = false) :
    onScroll ctx st e1 e2 pc dX dY
      = onSwipe ctx.swipeThreshold { st with totalMotionY := st.totalMotionY - dY } := by
  simp [onScroll, hb, hc, hpc]

theorem runScrolls_completedStable (ctx : ScrollCtx) (evs : List ScrollEv) :
    (∀ ev ∈ evs, goodSwipeEv ctx ev) →
    ∀ st : GestureState, st.swipeCompleted = true → runScrolls ctx st evs = (st, []) := by
  induction evs with
  | nil => intro _ st _; rfl
  | cons e r ih =>
    intro hevs st hc
    have hg := hevs e (List.mem_cons_self e r)
    rw [runScrolls_cons,
      onScroll_completed ctx st e.e1 e.e2 e.pointerCount e.dX e.dY hg.2 hg.1 hc,
      ih (fun ev hv => hevs ev (List.mem_cons_of_mem e hv)) st hc]
    rfl

theorem onSwipe_fireDown (threshold : ℚ) (st : GestureState)
    (h : threshold < st.totalMotionY) :
    onSwipe threshold st
      = ({ st with suppressCursorMovement := true, swipeCompleted := true },
         [Action.swipeDown], true) := by
  rw [onSwipe, if_pos h]

theorem onSwipe_fireUp (threshold : ℚ) (st : GestureState)
    (h1 : ¬ threshold < st.totalMotionY) (h2 : st.totalMotionY < -threshold) :
    onSwipe threshold st
      = ({ st with suppressCursorMovement := true, swipeCompleted := true },
         [Action.swipeUp], true) := by
  rw [onSwipe, if_neg h1, if_pos h2]

theorem onSwipe_noFire (threshold : ℚ) (st : GestureState)
    (h1 : ¬ threshold < st.totalMotionY) (h2 : ¬ st.totalMotionY < -threshold) :
    onSwipe threshold st = (st, [], false) := by
  rw [onSwipe, if_neg h1, if_neg h2]

theorem runScrolls_append (ctx : ScrollCtx) (st : GestureState) (l1 l2 : List ScrollEv) :
    runScrolls ctx st (l1 ++ l2)
      = ((runScrolls ctx (runScrolls ctx st l1).1 l2).1,
         (runScrolls ctx st l1).2 ++ (runScrolls ctx (runScrolls ctx st l1).1 l2).2) := by
  induction l1 generalizing st with
  | nil => simp [runScrolls]
  | cons e r ih => simp [runScrolls_cons, List.cons_append, ih]

/-- Invariant of a fresh three-finger swipe phase: either no swipe has fired
and the accumulator is still within the threshold band, or exactly one
swipe-down has fired with the (now frozen) accumulator above the threshold, or
exactly one swipe-up has fired with the accumulator below its negation. -/
def swipeInv (threshold : ℚ) (p : GestureState × List Action) : Prop :=
  (p.1.swipeCompleted = false ∧ -threshold ≤ p.1.totalMotionY ∧
     p.1.totalMotionY ≤ threshold ∧
     p.2.count Action.swipeDown = 0 ∧ p.2.count Action.swipeUp = 0) ∨
  (p.1.swipeCompleted = true ∧ threshold < p.1.totalMotionY ∧
     p.2.count Action.swipeDown = 1 ∧ p.2.count Action.swipeUp = 0) ∨
  (p.1.swipeCompleted = true ∧ p.1.totalMotionY < -threshold ∧
     p.2.count Action.swipeDown = 0 ∧ p.2.count Action.swipeUp = 1)

theorem runScrolls_swipeInv (ctx : ScrollCtx) (evs : List ScrollEv) :
    (∀ ev ∈ evs, goodSwipeEv ctx ev) →
    ∀ st : GestureState, st.swipeCompleted = false →
      -ctx.swipeThreshold ≤ st.totalMotionY → st.totalMotionY ≤ ctx.swipeThreshold →
      swipeInv ctx.swipeThreshold (runScrolls ctx st evs) := by
  induction evs with
  | nil =>
    intro _ st hc hlo hhi
    exact Or.inl ⟨hc, hlo, hhi, rfl, rfl⟩
  | cons e r ih =>
    intro hevs st hc hlo hhi
    have hg := hevs e (List.mem_cons_self e r)
    have hrest : ∀ ev ∈ r, goodSwipeEv ctx ev := fun ev hv => hevs ev (List.mem_cons_of_mem e hv)
    rw [runScrolls_cons,
      onScroll_swipePhase ctx st e.e1 e.e2 e.pointerCount e.dX e.dY hg.2 hg.1 hc]
    by_cases hdown : ctx.swipeThreshold < st.totalMotionY - e.dY
    · rw [onSwipe_fireDown _ _ hdown, runScrolls_completedStable ctx r hrest _ rfl]
      exact Or.inr (Or.inl ⟨rfl, hdown, by simp, by simp⟩)
    · by_cases hup : st.totalMotionY - e.dY < -ctx.swipeThreshold
      · rw [onSwipe_fireUp _ _ hdown hup, runScrolls_completedStable ctx r hrest _ rfl]
        exact Or.inr (Or.inr ⟨rfl, hup, by simp, by simp⟩)
      · rw [onSwipe_noFire _ _ hdown hup]
        exact ih hrest _ hc (not_lt.mp hup) (not_lt.mp hdown)

/-- Claim C4: in a gesture session of scroll callbacks that all carry at least
three pointers (with in-bounds origins), starting from the fresh session state
(accumulator zero after the pointer-down resets, swipe not completed), if the
accumulated sign-inverted Y motion at some point strictly exceeds the
density-scaled threshold of 40 dp, then over the whole session exactly one
swipe-down fires, no swipe-up fires, and the session is marked swipe-complete
so that no further swipe fires even if motion continues past the threshold. -/
theorem c4_three_finger_swipe_down_once (ctx : ScrollCtx) (density : ℚ)
    (st : GestureState) (evs : List ScrollEv)
    (hdens : 0 < density) (hT : ctx.swipeThreshold = swipeThresholdOf density)
    (hevs : ∀ ev ∈ evs, goodSwipeEv ctx ev)
    (hc : st.swipeCompleted = false) (htm : st.totalMotionY = 0)
    (hcross : ∃ n, ctx.swipeThreshold < (runScrolls ctx st (evs.take n)).1.totalMotionY) :
    (runScrolls ctx st evs).2.count Action.swipeDown = 1 ∧
    (runScrolls ctx st evs).2.count Action.swipeUp = 0 ∧
    (runScrolls ctx st evs).1.swipeCompleted = true := by
  obtain ⟨n, hn⟩ := hcross
  have hTpos : 0 < ctx.swipeThreshold := by
    rw [hT, swipeThresholdOf]; positivity
  have htake : ∀ ev ∈ evs.take n, goodSwipeEv ctx ev :=
    fun ev hv => hevs ev (List.take_subset n evs hv)
  have hdrop : ∀ ev ∈ evs.drop n, goodSwipeEv ctx ev :=
    fun ev hv => hevs ev (List.drop_subset n evs hv)
  have hinv := runScrolls_swipeInv ctx (evs.take n) htake st hc
    (by rw [htm]; linarith) (by rw [htm]; linarith)
  rcases hinv with ⟨_, _, hhi, _, _⟩ | ⟨hcomp, _, hd1, hu0⟩ | ⟨_, hlt, _, _⟩
  · exact absurd hn (not_lt.mpr hhi)
  · have hsplit := runScrolls_append ctx st (evs.take n) (evs.drop n)
    rw [List.take_append_drop] at hsplit
    rw [hsplit, runScrolls_completedStable ctx (evs.drop n) hdrop _ hcomp]
    exact ⟨by simpa using hd1, by simpa using hu0, hcomp⟩
  · exact absurd (lt_trans hn hlt) (by linarith)

def c4rd : RenderData :=
  RenderData.mk 1080 2400 1920 1080 (JFloat.fin 1, JFloat.fin 1) (9, 9)

def c4st : GestureState := GestureState.mk 0 false false false c4rd

def c4ctx : ScrollCtx :=
  ScrollCtx.mk true (swipeThresholdOf 1) (JRect.mk 0 0 100 100) false false

def c4ev : ScrollEv := ScrollEv.mk (5, 5) (5, 35) 3 0 (-30)

def c4evs : List ScrollEv := [c4ev, c4ev, c4ev]

theorem c4_three_finger_swipe_down_once_witness :
    (0 : ℚ) < 1 ∧ c4ctx.swipeThreshold = swipeThresholdOf 1 ∧
      (∀ ev ∈ c4evs, goodSwipeEv c4ctx ev) ∧
      c4st.swipeCompleted = false ∧ c4st.totalMotionY = 0 ∧
      c4ctx.swipeThreshold < (runScrolls c4ctx c4st (c4evs.take 2)).1.totalMotionY ∧
      (runScrolls c4ctx c4st c4evs).2.count Action.swipeDown = 1 ∧
      (runScrolls c4ctx c4st c4evs).2.count Action.swipeUp = 0 := by
  have hgood : ∀ ev ∈ c4evs, goodSwipeEv c4ctx ev := by
    intro ev hv
    have hev : ev = c4ev := by simpa [c4evs] using hv
    subst hev
    exact ⟨by norm_num [c4ev], by norm_num [c4ctx, c4ev, JRect.containsPt, jtrunc]⟩
  have hcross : c4ctx.swipeThreshold < (runScrolls c4ctx c4st (c4evs.take 2)).1.totalMotionY := by
    norm_num [c4ctx, c4st, c4evs, c4ev, c4rd, swipeThresholdOf, runScrolls, onScroll,
      onSwipe, JRect.containsPt, jtrunc]
  have hmain := c4_three_finger_swipe_down_once c4ctx 1 c4st c4evs (by norm_num) rfl
    hgood rfl rfl ⟨2, hcross⟩
  exact ⟨by norm_num, rfl, hgood, rfl, rfl, hcross, hmain.1, hmain.2.1⟩

end TX11
